import Mathlib

/-
Shallow embedding of src/src/common/drm_display.cpp (DRMDisplay).

The kernel and the GBM allocation library are modelled as oracles: the
responses the kernel would give (resource lists, connector and encoder
records, ioctl result codes) are inputs to the embedded functions, and
every kernel or library call the code performs is recorded in an event
trace.  Machine integers are modelled as Nat; the u32 value (uint32_t)(-1)
returned by the crtc search helpers is the explicit constant UINT32_MAX.
-/

namespace DRM

/-- A display mode, from drmModeModeInfo: hdisplay, vdisplay and the
DRM_MODE_TYPE_PREFERRED bit of the type field. -/
structure Mode where
  hdisplay : Nat
  vdisplay : Nat
  preferred : Bool
deriving DecidableEq

/-- A connector record, from drmModeConnector: its id, whether the
connection field equals DRM_MODE_CONNECTED, its mode list, the associated
encoder id, and the list of reachable encoder ids. -/
structure Connector where
  connector_id : Nat
  connected : Bool
  modes : List Mode
  encoder_id : Nat
  encoders : List Nat
deriving DecidableEq

/-- An encoder record, from drmModeEncoder: its id, the crtc id it names,
and the possible_crtcs capability bitmask over resource-list position. -/
structure Encoder where
  encoder_id : Nat
  crtc_id : Nat
  possible_crtcs : Nat
deriving DecidableEq

/-- The kernel-side world a DRMDisplay initializes against: the resource
lists (crtc ids, connectors in resource order, encoder ids) and the
drmModeGetEncoder lookup. drmModeGetConnector is modelled as total, in
resource order, because Initialize dereferences its result unchecked. -/
structure DRMDevice where
  crtcs : List Nat
  connectors : List Connector
  encoders : List Nat
  getEncoder : Nat → Option Encoder

/-- The u32 value (uint32_t)(-1), which find_crtc_for_encoder and
find_crtc_for_connector return on the no-match path. -/
def UINT32_MAX : Nat := 4294967295

/-- Loop body of find_crtc_for_encoder: walk the resource crtc list with
its index, returning the first crtc whose bit is set in possible_crtcs;
(uint32_t)(-1) when no bit matches. -/
def find_crtc_for_encoder_loop (enc : Encoder) : Nat → List Nat → Nat
  | _, [] => UINT32_MAX
  | i, crtc_id :: rest =>
    if enc.possible_crtcs.testBit i then crtc_id
    else find_crtc_for_encoder_loop enc (i + 1) rest

/-- find_crtc_for_encoder (drm_display.cpp lines 36-55). -/
def find_crtc_for_encoder (crtcs : List Nat) (enc : Encoder) : Nat :=
  find_crtc_for_encoder_loop enc 0 crtcs

/-- Loop body of find_crtc_for_connector: for each encoder id reachable
from the connector, look the encoder up; when the lookup succeeds and
find_crtc_for_encoder yields a value other than 0, return it.  The
C++ null check on drmModeGetEncoder is the none branch. -/
def find_crtc_for_connector_loop (dev : DRMDevice) : List Nat → Nat
  | [] => UINT32_MAX
  | id :: rest =>
    match dev.getEncoder id with
    | some enc =>
      let crtc_id := find_crtc_for_encoder dev.crtcs enc
      if crtc_id ≠ 0 then crtc_id
      else find_crtc_for_connector_loop dev rest
    | none => find_crtc_for_connector_loop dev rest

/-- find_crtc_for_connector (drm_display.cpp lines 57-80). -/
def find_crtc_for_connector (dev : DRMDevice) (conn : Connector) : Nat :=
  find_crtc_for_connector_loop dev conn.encoders

/-- Events recorded for kernel and GBM library calls. -/
inductive DEvent where
  | getConnector (id : Nat)
  | freeConnector (id : Nat)
  | lockFrontBo (bo : Nat)
  | releaseBo (bo : Nat)
  | addFB (bo : Nat) (res : Int)
  | rmFB (fb : Nat)
  | destroySurface
  | destroyDevice
  | closeFd
  | setCrtc (fb : Nat) (res : Int)
  | pageFlip (fb : Nat) (res : Int)
  | waitForFlip
  | logError (msg : String)
deriving DecidableEq

/-- Connector scan of Initialize (drm_display.cpp lines 100-110): get each
connector in resource order; keep the first connected one and stop; free
each non-connected one.  Returns the selected connector and the trace of
getConnector and freeConnector calls made. -/
def selectConnector : List Connector → Option Connector × List DEvent
  | [] => (none, [])
  | c :: rest =>
    if c.connected then (some c, [DEvent.getConnector c.connector_id])
    else
      let r := selectConnector rest
      (r.1, DEvent.getConnector c.connector_id ::
            DEvent.freeConnector c.connector_id :: r.2)

/-- Pixel area of a mode, hdisplay times vdisplay. -/
def modeArea (m : Mode) : Nat := m.hdisplay * m.vdisplay

/-- Mode scan of Initialize (drm_display.cpp lines 119-132): the
accumulator is the m_mode variable.  A preferred mode is taken and the
loop breaks; otherwise m_mode is replaced when unset or when the next
mode has strictly larger area. -/
def selectModeLoop : Option Mode → List Mode → Option Mode
  | acc, [] => acc
  | acc, m :: rest =>
    if m.preferred then some m
    else
      match acc with
      | none => selectModeLoop (some m) rest
      | some cur =>
        selectModeLoop (some (if modeArea m > modeArea cur then m else cur)) rest

/-- Mode selection of Initialize, starting from m_mode unset. -/
def selectMode (modes : List Mode) : Option Mode :=
  selectModeLoop none modes

/-- Encoder scan of Initialize (drm_display.cpp lines 142-153): get each
resource encoder and return the first whose encoder_id equals the target
(the encoder_id of the connector).  The C++ dereferences the lookup
result without a null check; for resource-listed ids the kernel lookup
succeeds, and a none is skipped here. -/
def scan_resource_encoders (dev : DRMDevice) (target : Nat) : List Nat → Option Encoder
  | [] => none
  | id :: rest =>
    match dev.getEncoder id with
    | some enc =>
      if enc.encoder_id == target then some enc
      else scan_resource_encoders dev target rest
    | none => scan_resource_encoders dev target rest

/-- Controller resolution of Initialize (drm_display.cpp lines 141-168):
when a resource encoder matches the encoder_id of the connector, its
crtc_id is used directly; otherwise find_crtc_for_connector runs and
only the value 0 is treated as failure.  none models the path that logs
No CRTC found and returns false. -/
def resolveCrtc (dev : DRMDevice) (conn : Connector) : Option Nat :=
  match scan_resource_encoders dev conn.encoder_id dev.encoders with
  | some enc => some enc.crtc_id
  | none =>
    let crtc := find_crtc_for_connector dev conn
    if crtc == 0 then none else some crtc

/-- The state Initialize resolves on success. -/
structure TopoResult where
  connector : Connector
  mode : Mode
  crtc_id : Nat
deriving DecidableEq

/-- Failure cases of Initialize after the device and resource queries
succeeded, named as in the error taxonomy of the spec. -/
inductive InitError where
  | NoConnector
  | NoMode
  | NoController
deriving DecidableEq

/-- Topology part of DRMDisplay::Initialize (drm_display.cpp lines
100-168): connector scan, mode scan, controller resolution. -/
def Initialize (dev : DRMDevice) : Except InitError TopoResult :=
  match (selectConnector dev.connectors).1 with
  | none => Except.error InitError.NoConnector
  | some conn =>
    match selectMode conn.modes with
    | none => Except.error InitError.NoMode
    | some mode =>
      match resolveCrtc dev conn with
      | none => Except.error InitError.NoController
      | some crtc => Except.ok ⟨conn, mode, crtc⟩

/-- A tracked swap-chain entry (struct Buffer in drm_display.h, as used by
drm_display.cpp): the buffer-object identity and the metadata captured at
registration time, plus the kernel framebuffer id. -/
structure Buffer where
  bo : Nat
  width : Nat
  height : Nat
  stride : Nat
  format : Nat
  fb_id : Nat
deriving DecidableEq

/-- Modelled from the spec: MAX_BUFFERS is declared in drm_display.h,
which is not under src; the spec describes the tracked set as a bounded
cache of fixed small capacity, at most 4 entries. -/
def MAX_BUFFERS : Nat := 4

/-- Oracle for the GBM library and the drmModeAddFB2 ioctl: metadata
queries on a buffer object, the ioctl result code for registering it, and
the framebuffer id the kernel writes back on success. -/
structure GbmOracle where
  boWidth : Nat → Nat
  boHeight : Nat → Nat
  boStride : Nat → Nat
  boFormat : Nat → Nat
  addFBRes : Nat → Int
  addFBId : Nat → Nat

/-- The mutable state of a DRMDisplay instance that the per-frame
operations and the destructor read: the tracked buffer set in insertion
order (the first m_num_buffers slots of m_buffers), and which long-lived
resources are currently held. -/
structure DState where
  buffers : List Buffer
  fb_surface : Bool
  gbm_device : Bool
  connector : Option Nat
  card_fd : Int
deriving DecidableEq

/-- Caller-visible outcome of LockFrontBuffer: a Buffer pointer, a null
return, or the Assert firing on capacity overflow. -/
inductive LockResult where
  | ok (b : Buffer)
  | fail
  | assertViolation
deriving DecidableEq

/-- DRMDisplay::LockFrontBuffer (drm_display.cpp lines 196-237).  The bo
argument is the buffer object gbm_surface_lock_front_buffer returned for
this call.  On a cache hit the stored entry is returned with no kernel
call; on a miss the Assert guards capacity, the metadata is queried, and
drmModeAddFB2 runs: failure is logged and returns null without adding the
entry, success appends the entry. -/
def LockFrontBuffer (g : GbmOracle) (st : DState) (bo : Nat) :
    LockResult × DState × List DEvent :=
  match st.buffers.find? (fun b => b.bo == bo) with
  | some b => (LockResult.ok b, st, [DEvent.lockFrontBo bo])
  | none =>
    if st.buffers.length < MAX_BUFFERS then
      let b : Buffer :=
        ⟨bo, g.boWidth bo, g.boHeight bo, g.boStride bo, g.boFormat bo, g.addFBId bo⟩
      let res := g.addFBRes bo
      if res ≠ 0 then
        (LockResult.fail, st,
         [DEvent.lockFrontBo bo, DEvent.addFB bo res,
          DEvent.logError "drmModeAddFB2 failed"])
      else
        (LockResult.ok b, { st with buffers := st.buffers ++ [b] },
         [DEvent.lockFrontBo bo, DEvent.addFB bo res])
    else
      (LockResult.assertViolation, st, [DEvent.lockFrontBo bo])

/-- DRMDisplay::ReleaseBuffer (drm_display.cpp lines 239-242): returns the
buffer object to the surface; the tracked set is not touched. -/
def ReleaseBuffer (st : DState) (b : Buffer) : DState × List DEvent :=
  (st, [DEvent.releaseBo b.bo])

/-- DRMDisplay::PresentSurface (drm_display.cpp lines 244-288).  The
kernel result codes for drmModeSetCrtc and drmModePageFlip are oracle
inputs.  The C++ function returns void, so the caller-visible result is
Unit; no member of the instance is written.  The blocking select loop
after a successful flip submission is the single waitForFlip event. -/
def PresentSurface (st : DState) (fb : Nat) (wait_for_vsync : Bool)
    (setCrtcRes flipRes : Int) : Unit × DState × List DEvent :=
  if !wait_for_vsync then
    if setCrtcRes ≠ 0 then
      ((), st, [DEvent.setCrtc fb setCrtcRes, DEvent.logError "drmModeSetCrtc failed"])
    else
      ((), st, [DEvent.setCrtc fb setCrtcRes])
  else
    if flipRes ≠ 0 then
      ((), st, [DEvent.pageFlip fb flipRes, DEvent.logError "drmModePageFlip failed"])
    else
      ((), st, [DEvent.pageFlip fb flipRes, DEvent.waitForFlip])

/-- The while loop of the destructor (drm_display.cpp lines 15-19): pop
from the end of the tracked set, calling drmModeRmFB for each entry, so
framebuffers are unregistered in reverse insertion order. -/
def rmAllFBs : List Buffer → List DEvent
  | [] => []
  | b :: rest => rmAllFBs rest ++ [DEvent.rmFB b.fb_id]

/-- DRMDisplay destructor (drm_display.cpp lines 13-32): unregister all
tracked framebuffers, then destroy the surface, the GBM device, free the
connector and close the card descriptor, each step guarded by whether the
resource is held. -/
def destructor (st : DState) : List DEvent :=
  rmAllFBs st.buffers
  ++ (if st.fb_surface then [DEvent.destroySurface] else [])
  ++ (if st.gbm_device then [DEvent.destroyDevice] else [])
  ++ (match st.connector with
      | some id => [DEvent.freeConnector id]
      | none => [])
  ++ (if st.card_fd ≥ 0 then [DEvent.closeFd] else [])

/-- A resource of the display instance, for stating the teardown order:
a registered framebuffer, the GBM surface, the GBM device, the held
connector, the open card descriptor. -/
inductive Res where
  | fb (id : Nat)
  | surface
  | gbmDev
  | conn (id : Nat)
  | fd
deriving DecidableEq

/-- The acquisition order Initialize and the per-frame path establish:
open the card descriptor, keep the connector, create the GBM device, then
the surface, then register framebuffers in insertion order. -/
def acquisitionOrder (st : DState) : List Res :=
  (if st.card_fd ≥ 0 then [Res.fd] else [])
  ++ (match st.connector with
      | some id => [Res.conn id]
      | none => [])
  ++ (if st.gbm_device then [Res.gbmDev] else [])
  ++ (if st.fb_surface then [Res.surface] else [])
  ++ st.buffers.map (fun b => Res.fb b.fb_id)

/-- Which resource a destructor event releases, if any. -/
def releasedOf : DEvent → Option Res
  | DEvent.rmFB id => some (Res.fb id)
  | DEvent.destroySurface => some Res.surface
  | DEvent.destroyDevice => some Res.gbmDev
  | DEvent.freeConnector id => some (Res.conn id)
  | DEvent.closeFd => some Res.fd
  | _ => none

/-- Stated from the mode-selection sentence of the spec, for comparison
with selectMode: the mode of largest pixel area, scanning in list order
and keeping the first encountered maximum. -/
def maxAreaFirst : List Mode → Option Mode
  | [] => none
  | m :: rest =>
    some (rest.foldl (fun cur x => if modeArea x > modeArea cur then x else cur) m)

/-- The resource encoders Initialize obtains, in resource-list order,
skipping ids whose kernel lookup fails. -/
def resEncoderList (dev : DRMDevice) : List Encoder :=
  dev.encoders.filterMap dev.getEncoder

/-- A per-frame operation against the buffer tracker. -/
inductive Op where
  | lock (bo : Nat)
  | release (b : Buffer)

/-- Run a sequence of per-frame operations; none when the Assert in
LockFrontBuffer fires. -/
def runOps (g : GbmOracle) : DState → List Op → Option DState
  | st, [] => some st
  | st, Op.lock bo :: rest =>
    match LockFrontBuffer g st bo with
    | (LockResult.assertViolation, _, _) => none
    | (_, st2, _) => runOps g st2 rest
  | st, Op.release b :: rest => runOps g (ReleaseBuffer st b).1 rest

/-- A fresh instance before any buffer was tracked. -/
def initState : DState :=
  ⟨[], false, false, none, -1⟩

/-- The buffer tracker invariant: each distinct buffer-object identity
appears at most once in the tracked set, and the set never exceeds the
fixed capacity. -/
def Inv (st : DState) : Prop :=
  (st.buffers.map (fun b => b.bo)).Nodup ∧ st.buffers.length ≤ MAX_BUFFERS

/-- The connector ids of getConnector events in a trace, in order. -/
def obtainedIds (tr : List DEvent) : List Nat :=
  tr.filterMap (fun e =>
    match e with
    | DEvent.getConnector id => some id
    | _ => none)

/-- The connector ids of freeConnector events in a trace, in order. -/
def freedIds (tr : List DEvent) : List Nat :=
  tr.filterMap (fun e =>
    match e with
    | DEvent.freeConnector id => some id
    | _ => none)

lemma freedIds_cons_get (id : Nat) (tr : List DEvent) :
    freedIds (DEvent.getConnector id :: tr) = freedIds tr := by
  simp [freedIds, List.filterMap_cons]

lemma freedIds_cons_free (id : Nat) (tr : List DEvent) :
    freedIds (DEvent.freeConnector id :: tr) = id :: freedIds tr := by
  simp [freedIds, List.filterMap_cons]

lemma obtainedIds_cons_get (id : Nat) (tr : List DEvent) :
    obtainedIds (DEvent.getConnector id :: tr) = id :: obtainedIds tr := by
  simp [obtainedIds, List.filterMap_cons]

lemma obtainedIds_cons_free (id : Nat) (tr : List DEvent) :
    obtainedIds (DEvent.freeConnector id :: tr) = obtainedIds tr := by
  simp [obtainedIds, List.filterMap_cons]

lemma selectModeLoop_of_find_pref (modes : List Mode) (m : Mode) :
    ∀ acc, modes.find? (fun x => x.preferred) = some m →
      selectModeLoop acc modes = some m := by
  induction modes with
  | nil => intro acc h; simp [List.find?] at h
  | cons x rest ih =>
    intro acc h
    by_cases hx : x.preferred = true
    · rw [List.find?_cons_of_pos _ hx] at h
      injection h with h
      subst h
      cases acc <;> simp [selectModeLoop, hx]
    · rw [List.find?_cons_of_neg _ hx] at h
      cases acc <;> simp [selectModeLoop, hx] <;> exact ih _ h

lemma selectModeLoop_no_pref (modes : List Mode) :
    (∀ x ∈ modes, x.preferred = false) → ∀ cur,
      selectModeLoop (some cur) modes =
        some (modes.foldl (fun c x => if modeArea x > modeArea c then x else c) cur) := by
  induction modes with
  | nil => intro _ cur; rfl
  | cons x rest ih =>
    intro hnp cur
    have hx : x.preferred = false := hnp x (List.mem_cons_self x rest)
    simp only [selectModeLoop, hx, Bool.false_eq_true, if_false, List.foldl_cons]
    exact ih (fun y hy => hnp y (List.mem_cons_of_mem _ hy)) _

/-- Claim C4: for a non-empty connector mode list, mode resolution
selects the first mode flagged preferred; with no preferred flag it
selects the first mode of maximal pixel area in scan order; for an empty
mode list Initialize fails with the NoMode case. -/
theorem mode_selection_c4 :
    (∀ modes m, modes.find? (fun x => x.preferred) = some m →
       selectMode modes = some m) ∧
    (∀ modes, modes.find? (fun x => x.preferred) = none →
       selectMode modes = maxAreaFirst modes) ∧
    (∀ dev conn, (selectConnector dev.connectors).1 = some conn → conn.modes = [] →
       Initialize dev = Except.error InitError.NoMode) := by
  refine ⟨fun modes m h => selectModeLoop_of_find_pref modes m none h,
          fun modes h => ?_, fun dev conn hc hm => ?_⟩
  · cases modes with
    | nil => rfl
    | cons x rest =>
      have hnp : ∀ y ∈ x :: rest, y.preferred = false := by
        intro y hy
        have := List.find?_eq_none.mp h y hy
        simpa using this
      have hx : x.preferred = false := hnp x (List.mem_cons_self x rest)
      show selectModeLoop none (x :: rest) = _
      simp only [selectModeLoop, hx, Bool.false_eq_true, if_false, maxAreaFirst]
      exact selectModeLoop_no_pref rest
        (fun y hy => hnp y (List.mem_cons_of_mem _ hy)) x
  · simp [Initialize, hc, hm, selectMode, selectModeLoop]

/-- Device with one connected connector whose mode list is empty. -/
def c4conn : Connector := ⟨3, true, [], 0, []⟩

/-- Device wrapper for the NoMode witness. -/
def c4dev : DRMDevice := ⟨[], [c4conn], [], fun _ => none⟩

theorem mode_selection_c4_witness :
    selectMode [⟨1920, 1080, true⟩, ⟨3840, 2160, false⟩] = some ⟨1920, 1080, true⟩ ∧
    selectMode [⟨1920, 1080, false⟩, ⟨3840, 2160, false⟩] =
      maxAreaFirst [⟨1920, 1080, false⟩, ⟨3840, 2160, false⟩] ∧
    Initialize c4dev = Except.error InitError.NoMode :=
  ⟨mode_selection_c4.1 [⟨1920, 1080, true⟩, ⟨3840, 2160, false⟩] ⟨1920, 1080, true⟩ (by decide),
   mode_selection_c4.2.1 [⟨1920, 1080, false⟩, ⟨3840, 2160, false⟩] (by decide),
   mode_selection_c4.2.2 c4dev c4conn rfl rfl⟩

/-- Claim C8: connectors are scanned in order and the first connected one
is selected; every other connector that was obtained is freed; when none
is connected Initialize fails with the NoConnector case and the trace
shows every obtained connector freed. -/
theorem connector_scan_c8 :
    (∀ conns, (selectConnector conns).1 = conns.find? (fun c => c.connected)) ∧
    (∀ conns, freedIds (selectConnector conns).2 =
       (conns.takeWhile (fun c => !c.connected)).map (fun c => c.connector_id)) ∧
    (∀ conns, obtainedIds (selectConnector conns).2 =
       freedIds (selectConnector conns).2 ++
       (match (selectConnector conns).1 with
        | some c => [c.connector_id]
        | none => [])) ∧
    (∀ dev, (selectConnector dev.connectors).1 = none →
       Initialize dev = Except.error InitError.NoConnector) := by
  refine ⟨fun conns => ?_, fun conns => ?_, fun conns => ?_, fun dev h => ?_⟩
  · induction conns with
    | nil => rfl
    | cons c rest ih =>
      by_cases hc : c.connected = true
      · simp [selectConnector, hc, List.find?_cons_of_pos _ hc]
      · simp only [selectConnector, hc, Bool.false_eq_true, if_false,
          List.find?_cons_of_neg _ hc]
        exact ih
  · induction conns with
    | nil => rfl
    | cons c rest ih =>
      by_cases hc : c.connected = true
      · simp [selectConnector, hc, freedIds, List.filterMap, List.takeWhile]
      · have hb : c.connected = false := by simpa using hc
        simp [selectConnector, hb, List.takeWhile_cons, freedIds_cons_get,
          freedIds_cons_free, ih]
  · induction conns with
    | nil => rfl
    | cons c rest ih =>
      by_cases hc : c.connected = true
      · simp [selectConnector, hc, freedIds, obtainedIds, List.filterMap]
      · have hb : c.connected = false := by simpa using hc
        simp only [selectConnector, hb, Bool.false_eq_true, if_false,
          obtainedIds_cons_get, obtainedIds_cons_free, freedIds_cons_get,
          freedIds_cons_free, ih, List.cons_append]
  · simp [Initialize, h]

/-- Device whose single connector is not connected. -/
def c8conn : Connector := ⟨4, false, [], 0, []⟩

/-- Device wrapper for the NoConnector witness. -/
def c8dev : DRMDevice := ⟨[], [c8conn], [], fun _ => none⟩

theorem connector_scan_c8_witness :
    Initialize c8dev = Except.error InitError.NoConnector :=
  connector_scan_c8.2.2.2 c8dev rfl

/-- Connector for the C1 failing input: connected, one mode, its
associated encoder id 7 matches no resource encoder, and its single
reachable encoder (id 5) has an empty capability mask. -/
def c1conn : Connector := ⟨10, true, [⟨1920, 1080, true⟩], 7, [5]⟩

/-- The C1 failing input: no resource encoder matches the connector, and
the only reachable encoder can drive no crtc (possible_crtcs = 0), so no
encoder yields a usable controller. -/
def c1dev : DRMDevice :=
  ⟨[1], [c1conn], [5], fun id => if id == 5 then some ⟨5, 0, 0⟩ else none⟩

/-- Claim C1 (code bug): on a device where no encoder yields a usable
controller, Initialize is meant to fail with the NoController case, but
find_crtc_for_connector signals no-match with (uint32_t)(-1) while
Initialize tests the result against 0, so Initialize succeeds with
controller id 4294967295. -/
theorem no_controller_c1_behavior :
    scan_resource_encoders c1dev c1conn.encoder_id c1dev.encoders = none ∧
    find_crtc_for_connector c1dev c1conn = UINT32_MAX ∧
    Initialize c1dev = Except.ok ⟨c1conn, ⟨1920, 1080, true⟩, UINT32_MAX⟩ :=
  ⟨rfl, rfl, rfl⟩

/-- Connector for the C2 counterexample: its associated encoder id 5 does
match a resource encoder, but that encoder names controller id 0; the
reachable encoder id 6 would let the bitmask fallback find crtc 9. -/
def c2conn : Connector := ⟨20, true, [⟨1, 1, true⟩], 5, [6]⟩

/-- The C2 counterexample device. -/
def c2dev : DRMDevice :=
  ⟨[9], [c2conn], [5],
   fun id =>
     if id == 5 then some ⟨5, 0, 1⟩
     else if id == 6 then some ⟨6, 7, 1⟩ else none⟩

/-- Claim C2 counterexample: the matching encoder names no controller id
(crtc_id 0), the bitmask fallback would return controller 9, yet the code
uses the direct binding and resolves controller id 0. -/
theorem controller_direct_c2_counterexample :
    resolveCrtc c2dev c2conn = some 0 ∧
    find_crtc_for_connector c2dev c2conn = 9 ∧
    Initialize c2dev = Except.ok ⟨c2conn, ⟨1, 1, true⟩, 0⟩ ∧
    (0 : Nat) ≠ 9 :=
  ⟨rfl, rfl, rfl, by decide⟩

lemma scan_resource_encoders_eq_find (dev : DRMDevice) (t : Nat) :
    ∀ ids : List Nat, scan_resource_encoders dev t ids =
      (ids.filterMap dev.getEncoder).find? (fun e => e.encoder_id == t) := by
  intro ids
  induction ids with
  | nil => rfl
  | cons id rest ih =>
    cases hg : dev.getEncoder id with
    | none => simp [scan_resource_encoders, hg, List.filterMap_cons, ih]
    | some enc =>
      by_cases he : (enc.encoder_id == t) = true
      · simp [scan_resource_encoders, hg, he, List.filterMap_cons,
          List.find?_cons_of_pos _ he]
      · simp [scan_resource_encoders, hg, he, List.filterMap_cons,
          List.find?_cons_of_neg _ he, ih]

/-- Claim C2 as amended: the direct binding is used whenever some
resource encoder matches the encoder id of the connector, regardless of
whether it names a controller id; the bitmask fallback runs only when no
resource encoder matches, and only its value 0 is treated as failure. -/
theorem controller_direct_c2 (dev : DRMDevice) (conn : Connector) :
    (∀ e, (resEncoderList dev).find? (fun x => x.encoder_id == conn.encoder_id) = some e →
       resolveCrtc dev conn = some e.crtc_id) ∧
    ((resEncoderList dev).find? (fun x => x.encoder_id == conn.encoder_id) = none →
       resolveCrtc dev conn =
         if find_crtc_for_connector dev conn == 0 then none
         else some (find_crtc_for_connector dev conn)) := by
  constructor
  · intro e he
    unfold resolveCrtc
    rw [scan_resource_encoders_eq_find]
    simp only [resEncoderList] at he
    rw [he]
  · intro h
    unfold resolveCrtc
    rw [scan_resource_encoders_eq_find]
    simp only [resEncoderList] at h
    rw [h]

theorem controller_direct_c2_witness :
    resolveCrtc c2dev c2conn = some (Encoder.mk 5 0 1).crtc_id :=
  (controller_direct_c2 c2dev c2conn).1 ⟨5, 0, 1⟩ (by decide)

/-- Oracle whose framebuffer registrations succeed, assigning fb id
100 + bo. -/
def gOK : GbmOracle :=
  ⟨fun _ => 1920, fun _ => 1080, fun _ => 7680, fun _ => 875713112,
   fun _ => 0, fun bo => 100 + bo⟩

/-- Oracle whose framebuffer registrations fail with -22. -/
def gFail : GbmOracle :=
  ⟨fun _ => 1920, fun _ => 1080, fun _ => 7680, fun _ => 875713112,
   fun _ => -22, fun bo => 100 + bo⟩

/-- A tracked entry used by concrete witnesses. -/
def b5 : Buffer := ⟨1, 1920, 1080, 7680, 875713112, 42⟩

/-- A live instance state holding one tracked buffer. -/
def st5 : DState := ⟨[b5], true, true, some 10, 3⟩

/-- Claim C5: locking a buffer object already in the tracked set, also
after an intervening ReleaseBuffer of any buffer, returns the stored
entry unchanged with the same framebuffer id and metadata, leaves the
state unchanged, and the trace holds no kernel registration call. -/
theorem cache_hit_c5 (g : GbmOracle) (st : DState) (bo : Nat) (b : Buffer)
    (h : st.buffers.find? (fun x => x.bo == bo) = some b) :
    LockFrontBuffer g st bo = (LockResult.ok b, st, [DEvent.lockFrontBo bo]) ∧
    (∀ b2, LockFrontBuffer g (ReleaseBuffer st b2).1 bo =
       (LockResult.ok b, st, [DEvent.lockFrontBo bo])) := by
  have hmain : LockFrontBuffer g st bo =
      (LockResult.ok b, st, [DEvent.lockFrontBo bo]) := by
    unfold LockFrontBuffer
    rw [h]
  exact ⟨hmain, fun b2 => hmain⟩

theorem cache_hit_c5_witness :
    LockFrontBuffer gOK st5 1 = (LockResult.ok b5, st5, [DEvent.lockFrontBo 1]) ∧
    LockFrontBuffer gOK (ReleaseBuffer st5 b5).1 1 =
      (LockResult.ok b5, st5, [DEvent.lockFrontBo 1]) :=
  ⟨(cache_hit_c5 gOK st5 1 b5 (by decide)).1,
   (cache_hit_c5 gOK st5 1 b5 (by decide)).2 b5⟩

/-- Claim C6: a first lock of an unseen buffer object whose kernel
registration fails returns null, leaves the tracked set unchanged with
the object still untracked, and a retry of the same lock attempts the
registration again. -/
theorem registration_failure_c6 (g : GbmOracle) (st : DState) (bo : Nat)
    (hmiss : st.buffers.find? (fun x => x.bo == bo) = none)
    (hcap : st.buffers.length < MAX_BUFFERS)
    (hres : g.addFBRes bo ≠ 0) :
    (LockFrontBuffer g st bo).1 = LockResult.fail ∧
    (LockFrontBuffer g st bo).2.1 = st ∧
    (LockFrontBuffer g st bo).2.1.buffers.find? (fun x => x.bo == bo) = none ∧
    DEvent.addFB bo (g.addFBRes bo) ∈
      (LockFrontBuffer g (LockFrontBuffer g st bo).2.1 bo).2.2 := by
  have hmain : LockFrontBuffer g st bo =
      (LockResult.fail, st,
       [DEvent.lockFrontBo bo, DEvent.addFB bo (g.addFBRes bo),
        DEvent.logError "drmModeAddFB2 failed"]) := by
    unfold LockFrontBuffer
    rw [hmiss]
    simp [hcap, hres]
  refine ⟨by rw [hmain], by rw [hmain], ?_, ?_⟩
  · rw [hmain]
    exact hmiss
  · rw [hmain]
    rw [show (LockResult.fail, st,
       [DEvent.lockFrontBo bo, DEvent.addFB bo (g.addFBRes bo),
        DEvent.logError "drmModeAddFB2 failed"]).2.1 = st from rfl]
    rw [hmain]
    simp

theorem registration_failure_c6_witness :
    (LockFrontBuffer gFail initState 2).1 = LockResult.fail ∧
    (LockFrontBuffer gFail initState 2).2.1 = initState ∧
    (LockFrontBuffer gFail initState 2).2.1.buffers.find? (fun x => x.bo == 2) = none ∧
    DEvent.addFB 2 (gFail.addFBRes 2) ∈
      (LockFrontBuffer gFail (LockFrontBuffer gFail initState 2).2.1 2).2.2 :=
  registration_failure_c6 gFail initState 2 (by decide) (by decide) (by decide)

/-- Claim C10: on the registration-failure path of LockFrontBuffer the
buffer object obtained from the surface is not released back: the call
returns null and the trace holds the front-buffer lock but no release
call. -/
theorem lock_error_no_release_c10 (g : GbmOracle) (st : DState) (bo : Nat)
    (hmiss : st.buffers.find? (fun x => x.bo == bo) = none)
    (hcap : st.buffers.length < MAX_BUFFERS)
    (hres : g.addFBRes bo ≠ 0) :
    (LockFrontBuffer g st bo).1 = LockResult.fail ∧
    DEvent.lockFrontBo bo ∈ (LockFrontBuffer g st bo).2.2 ∧
    (∀ x, DEvent.releaseBo x ∉ (LockFrontBuffer g st bo).2.2) := by
  have hmain : LockFrontBuffer g st bo =
      (LockResult.fail, st,
       [DEvent.lockFrontBo bo, DEvent.addFB bo (g.addFBRes bo),
        DEvent.logError "drmModeAddFB2 failed"]) := by
    unfold LockFrontBuffer
    rw [hmiss]
    simp [hcap, hres]
  refine ⟨by rw [hmain], by rw [hmain]; simp, fun x => by rw [hmain]; simp⟩

theorem lock_error_no_release_c10_witness :
    (LockFrontBuffer gFail initState 3).1 = LockResult.fail ∧
    DEvent.lockFrontBo 3 ∈ (LockFrontBuffer gFail initState 3).2.2 ∧
    DEvent.releaseBo 3 ∉ (LockFrontBuffer gFail initState 3).2.2 :=
  have h := lock_error_no_release_c10 gFail initState 3 (by decide) (by decide) (by decide)
  ⟨h.1, h.2.1, h.2.2 3⟩

/-- A live instance state for the present counterexample. -/
def st3 : DState := ⟨[b5], true, true, some 10, 3⟩

/-- Claim C3 counterexample: a failing display-set call and a failing
page-flip submission are logged, but the caller-visible return value
(PresentSurface returns void) and the instance state are identical to
those of the succeeding calls, so the caller of PresentSurface cannot
observe that the call failed. -/
theorem per_frame_errors_c3_counterexample :
    (PresentSurface st3 142 false (-22) 0).1 = (PresentSurface st3 142 false 0 0).1 ∧
    (PresentSurface st3 142 false (-22) 0).2.1 = (PresentSurface st3 142 false 0 0).2.1 ∧
    DEvent.logError "drmModeSetCrtc failed" ∈ (PresentSurface st3 142 false (-22) 0).2.2 ∧
    (PresentSurface st3 142 true 0 (-22)).1 = (PresentSurface st3 142 true 0 0).1 ∧
    (PresentSurface st3 142 true 0 (-22)).2.1 = (PresentSurface st3 142 true 0 0).2.1 ∧
    DEvent.logError "drmModePageFlip failed" ∈ (PresentSurface st3 142 true 0 (-22)).2.2 := by
  decide

/-- Claim C3 as amended: the framebuffer-registration failure is logged
and reported (LockFrontBuffer returns null with the tracked set
unchanged); display-set and page-flip submission failures are logged but
not reported, since PresentSurface returns void; in all three cases the
instance state is unchanged and remains usable. -/
theorem per_frame_errors_c3 :
    (∀ g st bo, st.buffers.find? (fun x => x.bo == bo) = none →
       st.buffers.length < MAX_BUFFERS → g.addFBRes bo ≠ 0 →
       (LockFrontBuffer g st bo).1 = LockResult.fail ∧
       (LockFrontBuffer g st bo).2.1 = st ∧
       DEvent.logError "drmModeAddFB2 failed" ∈ (LockFrontBuffer g st bo).2.2) ∧
    (∀ st fb r, r ≠ 0 →
       PresentSurface st fb false r 0 =
         ((), st, [DEvent.setCrtc fb r, DEvent.logError "drmModeSetCrtc failed"])) ∧
    (∀ st fb r, r ≠ 0 →
       PresentSurface st fb true 0 r =
         ((), st, [DEvent.pageFlip fb r, DEvent.logError "drmModePageFlip failed"])) := by
  refine ⟨fun g st bo hmiss hcap hres => ?_, fun st fb r hr => ?_, fun st fb r hr => ?_⟩
  · have hmain : LockFrontBuffer g st bo =
        (LockResult.fail, st,
         [DEvent.lockFrontBo bo, DEvent.addFB bo (g.addFBRes bo),
          DEvent.logError "drmModeAddFB2 failed"]) := by
      unfold LockFrontBuffer
      rw [hmiss]
      simp [hcap, hres]
    refine ⟨by rw [hmain], by rw [hmain], by rw [hmain]; simp⟩
  · simp [PresentSurface, hr]
  · simp [PresentSurface, hr]

theorem per_frame_errors_c3_witness :
    ((LockFrontBuffer gFail initState 4).1 = LockResult.fail ∧
     (LockFrontBuffer gFail initState 4).2.1 = initState ∧
     DEvent.logError "drmModeAddFB2 failed" ∈ (LockFrontBuffer gFail initState 4).2.2) ∧
    PresentSurface st3 142 false (-22) 0 =
      ((), st3, [DEvent.setCrtc 142 (-22), DEvent.logError "drmModeSetCrtc failed"]) ∧
    PresentSurface st3 142 true 0 (-22) =
      ((), st3, [DEvent.pageFlip 142 (-22), DEvent.logError "drmModePageFlip failed"]) :=
  ⟨per_frame_errors_c3.1 gFail initState 4 (by decide) (by decide) (by decide),
   per_frame_errors_c3.2.1 st3 142 (-22) (by decide),
   per_frame_errors_c3.2.2 st3 142 (-22) (by decide)⟩

lemma lock_preserves_inv (g : GbmOracle) (st : DState) (bo : Nat) (hinv : Inv st) :
    (LockFrontBuffer g st bo).1 = LockResult.assertViolation ∨
      Inv (LockFrontBuffer g st bo).2.1 := by
  cases hfind : st.buffers.find? (fun x => x.bo == bo) with
  | some b =>
    right
    have : LockFrontBuffer g st bo = (LockResult.ok b, st, [DEvent.lockFrontBo bo]) := by
      unfold LockFrontBuffer
      rw [hfind]
    rw [this]
    exact hinv
  | none =>
    by_cases hcap : st.buffers.length < MAX_BUFFERS
    · by_cases hres : g.addFBRes bo ≠ 0
      · right
        have : (LockFrontBuffer g st bo).2.1 = st := by
          unfold LockFrontBuffer
          rw [hfind]
          simp [hcap, hres]
        rw [this]
        exact hinv
      · right
        have hb : (LockFrontBuffer g st bo).2.1.buffers =
            st.buffers ++
              [⟨bo, g.boWidth bo, g.boHeight bo, g.boStride bo, g.boFormat bo,
                g.addFBId bo⟩] := by
          unfold LockFrontBuffer
          rw [hfind]
          simp [hcap, hres]
        have hnotin : ∀ x ∈ st.buffers, ¬(x.bo == bo) = true :=
          List.find?_eq_none.mp hfind
        constructor
        · rw [hb]
          simp only [List.map_append, List.map_cons, List.map_nil]
          rw [List.nodup_append]
          refine ⟨hinv.1, List.nodup_singleton bo, ?_⟩
          intro y hy
          simp only [List.mem_map] at hy
          obtain ⟨x, hx, rfl⟩ := hy
          have := hnotin x hx
          simp only [beq_iff_eq] at this
          simp [this]
        · rw [hb]
          simp only [List.length_append, List.length_cons, List.length_nil]
          omega
    · left
      unfold LockFrontBuffer
      rw [hfind]
      simp [hcap]

lemma runOps_inv (g : GbmOracle) : ∀ (ops : List Op) (st : DState), Inv st →
    ∀ st2, runOps g st ops = some st2 → Inv st2 := by
  intro ops
  induction ops with
  | nil =>
    intro st hinv st2 h
    simp only [runOps, Option.some.injEq] at h
    rw [← h]
    exact hinv
  | cons op rest ih =>
    intro st hinv st2 h
    cases op with
    | lock bo =>
      have hpres := lock_preserves_inv g st bo hinv
      simp only [runOps] at h
      cases hL : LockFrontBuffer g st bo with
      | mk r tail =>
        rw [hL] at h hpres
        cases r with
        | assertViolation => simp at h
        | ok b => exact ih tail.1 (hpres.resolve_left (by simp)) st2 h
        | fail => exact ih tail.1 (hpres.resolve_left (by simp)) st2 h
    | release b =>
      simp only [runOps, ReleaseBuffer] at h
      exact ih st hinv st2 h

/-- Claim C7: starting from the initial state, any sequence of lock and
release operations keeps the tracked set with each buffer-object identity
at most once and with size at most MAX_BUFFERS; a cache miss at full
capacity is the assert firing, not a recoverable error return. -/
theorem buffer_invariant_c7 :
    (∀ g ops st2, runOps g initState ops = some st2 → Inv st2) ∧
    (∀ g st bo, st.buffers.find? (fun x => x.bo == bo) = none →
       ¬ st.buffers.length < MAX_BUFFERS →
       (LockFrontBuffer g st bo).1 = LockResult.assertViolation) := by
  constructor
  · intro g ops st2 h
    exact runOps_inv g ops initState (by constructor <;> simp [initState, Inv]) st2 h
  · intro g st bo hmiss hcap
    unfold LockFrontBuffer
    rw [hmiss]
    simp [hcap]

/-- The state reached by the op sequence of the C7 witness. -/
def c7state : DState :=
  ⟨[⟨1, 1920, 1080, 7680, 875713112, 101⟩, ⟨2, 1920, 1080, 7680, 875713112, 102⟩],
   false, false, none, -1⟩

/-- A state at full capacity with four distinct tracked identities. -/
def c7full : DState :=
  ⟨[⟨1, 0, 0, 0, 0, 101⟩, ⟨2, 0, 0, 0, 0, 102⟩, ⟨3, 0, 0, 0, 0, 103⟩,
    ⟨4, 0, 0, 0, 0, 104⟩], true, true, some 10, 3⟩

theorem buffer_invariant_c7_witness :
    Inv c7state ∧ (LockFrontBuffer gOK c7full 9).1 = LockResult.assertViolation :=
  ⟨buffer_invariant_c7.1 gOK
     [Op.lock 1, Op.release ⟨1, 1920, 1080, 7680, 875713112, 101⟩, Op.lock 1, Op.lock 2]
     c7state rfl,
   buffer_invariant_c7.2 gOK c7full 9 (by decide) (by decide)⟩

lemma rmAllFBs_eq (bs : List Buffer) :
    rmAllFBs bs = bs.reverse.map (fun b => DEvent.rmFB b.fb_id) := by
  induction bs with
  | nil => rfl
  | cons b rest ih => simp [rmAllFBs, ih, List.reverse_cons]

/-- Claim C9: the destructor event sequence is exactly the releases of
the acquired resources in reverse acquisition order: all tracked
framebuffers in reverse insertion order, then the surface, the GBM
device, the connector, the card descriptor, each only when held. -/
theorem teardown_order_c9 (st : DState) :
    (destructor st).map releasedOf = ((acquisitionOrder st).reverse).map some := by
  obtain ⟨bs, fs, gd, conn, fd⟩ := st
  by_cases hfd : fd ≥ 0 <;>
    cases conn <;> cases fs <;> cases gd <;>
      simp [destructor, acquisitionOrder, rmAllFBs_eq, releasedOf, hfd,
        List.map_append, List.reverse_append, List.map_reverse, List.map_map,
        Function.comp]

end DRM
